import Mathlib

/-!
Verification development for the CSV-visualizer app (`src/app.py`).

The app pipeline is: build a prompt from the dataframe's column names and the
user's instruction, call a remote chat-completion endpoint, sanitize the reply
(strip whitespace, strip markdown fences), check it mentions `filtered_df`,
execute it with `exec(code, {}, {"df": df})`, capture `local_vars.get("filtered_df")`,
and keep the original dataframe on any failure.  Chart rendering clears the
matplotlib surface and draws one of four chart kinds.

We embed the dataframe as a list of column names plus rows, Python values that
can end up bound to `filtered_df` as an inductive `PyValue`, and the opaque
`exec` of arbitrary Python code as an oracle from code and the locals dict to
either an exception or a final locals dict.  Side effects on the Streamlit
surface (st.error, st.code, st.warning) are modelled as an output trace.
-/

/-- Embeds a pandas DataFrame: an ordered list of column names and a list of
rows (cell values kept as strings; their type plays no role in the claims). -/
structure DataFrame where
  columns : List String
  rows : List (List String)
deriving Repr, DecidableEq

/-- Embeds the pandas `.empty` property: a frame is empty when it has no rows
or no columns (any axis of length 0). -/
def DataFrame.empty (df : DataFrame) : Bool :=
  df.rows.isEmpty || df.columns.isEmpty

/-- A Python value that `exec` may leave bound to `filtered_df` in the locals
dict: `None`, a DataFrame, or some other object (identified by its Python type
name) on which the `.empty` attribute access raises. -/
inductive PyValue where
  | pnone : PyValue
  | pdf : DataFrame → PyValue
  | other : String → PyValue
deriving Repr, DecidableEq

/-- The text of the `AttributeError` Python raises when `.empty` is read from
an object of type `tag` that lacks it, as interpolated by `str(e)`. -/
def attrErrText (tag : String) : String :=
  "'" ++ tag ++ "' object has no attribute 'empty'"

/-- Embeds the attribute access `v.empty`: succeeds exactly on DataFrames,
raises an `AttributeError` otherwise. -/
def PyValue.emptyAttr : PyValue → Except String Bool
  | PyValue.pnone => Except.error (attrErrText "NoneType")
  | PyValue.pdf d => Except.ok d.empty
  | PyValue.other tag => Except.error (attrErrText tag)

/-! ## Python string operations

`str.strip`, `str.replace(pat, "")` and substring membership are modelled on
`List Char`, then lifted to `String`. -/

/-- The characters Python's default `str.strip()` removes (ASCII whitespace). -/
def isPySpace (c : Char) : Bool :=
  c = ' ' || c = '\t' || c = '\n' || c = '\r' || c = '\x0b' || c = '\x0c'

/-- Embeds Python `str.strip()`: drop whitespace from both ends. -/
def pyStrip (l : List Char) : List Char :=
  (l.dropWhile isPySpace).rdropWhile isPySpace

/-- Embeds Python `s.replace(pat, "")` for a non-empty `pat`: scan left to
right, delete each non-overlapping occurrence, never rescanning across a
deletion.  `fuel` bounds the recursion; `fuel = l.length` is always enough. -/
def replaceDropAux (pat : List Char) : Nat → List Char → List Char
  | 0, l => l
  | _ + 1, [] => []
  | fuel + 1, c :: cs =>
    if pat ≠ [] ∧ pat <+: (c :: cs) then
      replaceDropAux pat fuel ((c :: cs).drop pat.length)
    else
      c :: replaceDropAux pat fuel cs

/-- Embeds Python `s.replace(pat, "")` (deletion of every occurrence). -/
def replaceDrop (pat : List Char) (l : List Char) : List Char :=
  replaceDropAux pat l.length l

/-- The backtick character, head of a markdown fence. -/
def bq : Char := '\x60'

/-- The markdown fence marker stripped second: three backticks. -/
def fenceTQ : List Char := "```".toList

/-- The language-tagged opening fence stripped first. -/
def fencePy : List Char := "```python".toList

/-- Embeds the reply sanitization of `filter_dataframe_with_ai`:
`code.strip().replace("```python", "").replace("```", "").strip()`. -/
def sanitizeL (l : List Char) : List Char :=
  pyStrip (replaceDrop fenceTQ (replaceDrop fencePy (pyStrip l)))

/-- String-level sanitization, the composite applied to the model reply. -/
def sanitize (s : String) : String :=
  String.mk (sanitizeL s.toList)

/-- Embeds Python's substring test `pat in s`. -/
def pyIn (pat s : String) : Bool :=
  decide (pat.toList <:+: s.toList)

/-! ## Prompt construction -/

/-- Embeds Python `", ".join(items)`. -/
def joinComma : List String → String
  | [] => ""
  | [c] => c
  | c :: cs => c ++ ", " ++ joinComma cs

example : joinComma ["a", "b", "c"] = "a, b, c" := by rfl

/-- The fixed text of the prompt before the comma-joined column names. -/
def promptHead : String :=
  "\nYou are a Python data analyst.\nYou have a pandas dataframe called `df` with columns: "

/-- The fixed text of the prompt between the column names and the user
instruction (the instruction sits inside a triple-quoted block). -/
def promptMid : String :=
  "\n\nUser wants to filter the data with this instruction:\n\"\"\""

/-- The fixed text of the prompt after the user instruction: the one-line
format contract, the inline example, and the no-markdown instruction. -/
def promptTail : String :=
  "\"\"\"\n\nWrite a single line of valid Python code assigning the filtered dataframe to variable `filtered_df`.\n\nExample:\nfiltered_df = df[df[\"column\"] > 1000]\n\nDo NOT include explanations or markdown. Only output the Python code.\n"

/-- Embeds the prompt f-string of `filter_dataframe_with_ai`: fixed text with
the comma-joined column list and the verbatim user instruction spliced in. -/
def buildPrompt (df : DataFrame) (user_comment : String) : String :=
  promptHead ++ joinComma df.columns ++ promptMid ++ user_comment ++ promptTail

/-! ## The filter pipeline -/

/-- The locals dict passed to `exec`: an association list of Python names. -/
abbrev Ctx := List (String × PyValue)

/-- The semantics of Python `exec(code, {}, local_vars)` on arbitrary code is
not embeddable, so it is an oracle: from the code string and the locals dict to
either a raised exception (its text) or the locals dict after execution. -/
abbrev ExecOracle := String → Ctx → Except String Ctx

/-- What `filter_dataframe_with_ai` writes to the Streamlit surface:
`st.error`, `st.code(…, language="python")` and `st.warning` calls. -/
inductive Shown where
  | errorMsg : String → Shown
  | codeBlock : String → Shown
  | warnMsg : String → Shown
deriving Repr, DecidableEq

/-- The `st.error` text when the sanitized reply lacks `filtered_df`. -/
def invalidFilterMsg : String :=
  "AI did not return a valid filter code. Try simplifying your instruction."

/-- The `st.warning` text when the filter returns no rows. -/
def noRowsMsg : String :=
  "The filter returned no rows. Please try a different filter."

/-- The `st.error` text when the executed code raises, with the error's text
interpolated. -/
def execErrorMsg (e : String) : String :=
  "Error executing AI-generated code: " ++ e

/-- Result of the `try` block body when no exception escapes it: either the
no-rows path (`filtered_df` is `None` or empty) or the captured value. -/
inductive TryResult where
  | noRows : TryResult
  | success : PyValue → TryResult
deriving Repr, DecidableEq

/-- Embeds the `try` block of `filter_dataframe_with_ai`:
`local_vars = {"df": df}`, `exec(code, {}, local_vars)`,
`filtered_df = local_vars.get("filtered_df")`, then the
`filtered_df is None or filtered_df.empty` test (short-circuit: the attribute
is read only when the value is not `None`, and that read itself may raise). -/
def tryBlock (exec : ExecOracle) (df : DataFrame) (code : String) :
    Except String TryResult :=
  match exec code [("df", PyValue.pdf df)] with
  | Except.error e => Except.error e
  | Except.ok ctx =>
    let filtered_df := (List.lookup "filtered_df" ctx).getD PyValue.pnone
    if filtered_df = PyValue.pnone then
      Except.ok TryResult.noRows
    else
      match filtered_df.emptyAttr with
      | Except.error e => Except.error e
      | Except.ok true => Except.ok TryResult.noRows
      | Except.ok false => Except.ok (TryResult.success filtered_df)

/-- The value returned to the caller together with the surface trace. -/
structure FilterOutput where
  result : PyValue
  shown : List Shown
deriving Repr, DecidableEq

/-- Embeds `filter_dataframe_with_ai` from the reply text onward: sanitize the
reply, reject it when `"filtered_df" not in code` (keeping the input frame and
showing nothing but the error), otherwise show the code, run the `try` block,
and degrade every failure to "return the input frame plus a message". -/
def synthesize_core (exec : ExecOracle) (df : DataFrame) (reply : String) :
    FilterOutput :=
  let code := sanitize reply
  if pyIn "filtered_df" code = false then
    { result := PyValue.pdf df, shown := [Shown.errorMsg invalidFilterMsg] }
  else
    match tryBlock exec df code with
    | Except.error e =>
      { result := PyValue.pdf df
        shown := [Shown.codeBlock code, Shown.errorMsg (execErrorMsg e)] }
    | Except.ok TryResult.noRows =>
      { result := PyValue.pdf df
        shown := [Shown.codeBlock code, Shown.warnMsg noRowsMsg] }
    | Except.ok (TryResult.success v) =>
      { result := v, shown := [Shown.codeBlock code] }

/-- Embeds `filter_dataframe_with_ai` in full.  The remote call
`ask_together_for_filter` is an oracle from the prompt to either a transport
error (`response.raise_for_status()`) or the reply text; the call sits outside
the `try` block, so a transport error propagates to the caller unhandled. -/
def filter_dataframe_with_ai (ask : String → Except String String)
    (exec : ExecOracle) (df : DataFrame) (user_comment : String) :
    Except String FilterOutput :=
  match ask (buildPrompt df user_comment) with
  | Except.error e => Except.error e
  | Except.ok reply => Except.ok (synthesize_core exec df reply)

/-! ## Chart rendering -/

/-- Embeds the column access `df[c]`: the cells of the named column. -/
def DataFrame.col (df : DataFrame) (c : String) : List String :=
  let i := df.columns.indexOf c
  df.rows.map (fun r => r.getD i "")

/-- One effect of `plot_chart` on the matplotlib/Streamlit surface, in
order: clearing, a drawing primitive, labelling, rendering, or a warning. -/
inductive ChartCmd where
  | clear : ChartCmd
  | plotLine : List String → List String → ChartCmd
  | bar : List String → List String → ChartCmd
  | scatter : List String → List String → ChartCmd
  | hist : List String → Nat → ChartCmd
  | title : String → ChartCmd
  | xlabel : String → ChartCmd
  | ylabel : String → ChartCmd
  | render : ChartCmd
  | warn : String → ChartCmd
deriving Repr, DecidableEq

/-- The `st.warning` text for an unrecognized chart kind. -/
def invalidChartMsg : String := "Invalid chart type selected."

/-- The trailing effects shared by the four recognized kinds:
`plt.title`, `plt.xlabel`, `plt.ylabel`, `st.pyplot`. -/
def chartTail (chart_type x_col y_col : String) : List ChartCmd :=
  [ChartCmd.title (chart_type ++ " Chart"), ChartCmd.xlabel x_col,
   ChartCmd.ylabel y_col, ChartCmd.render]

/-- Embeds `plot_chart` as its effect trace: `plt.clf()` first, then the
if/elif chain over the chart kind; the else branch warns and returns early,
skipping the title, labels and render. -/
def plot_chart (df : DataFrame) (chart_type x_col y_col : String) :
    List ChartCmd :=
  ChartCmd.clear ::
    (if chart_type = "Line" then
      ChartCmd.plotLine (df.col x_col) (df.col y_col) ::
        chartTail chart_type x_col y_col
    else if chart_type = "Bar" then
      ChartCmd.bar (df.col x_col) (df.col y_col) ::
        chartTail chart_type x_col y_col
    else if chart_type = "Scatter" then
      ChartCmd.scatter (df.col x_col) (df.col y_col) ::
        chartTail chart_type x_col y_col
    else if chart_type = "Histogram" then
      ChartCmd.hist (df.col y_col) 20 :: chartTail chart_type x_col y_col
    else
      [ChartCmd.warn invalidChartMsg])

/-- Selects the drawing primitives of a trace (the commands that put data on
the chart, as opposed to clearing, labelling, rendering or warning). -/
def isDrawCmd : ChartCmd → Bool
  | ChartCmd.plotLine _ _ => true
  | ChartCmd.bar _ _ => true
  | ChartCmd.scatter _ _ => true
  | ChartCmd.hist _ _ => true
  | _ => false

/-- The data actually drawn by a trace. -/
def drawnData (cmds : List ChartCmd) : List ChartCmd :=
  cmds.filter isDrawCmd

/-! ## Lemmas on the string model -/

theorem fenceTQ_eq : fenceTQ = [bq, bq, bq] := by decide

theorem fenceTQ_ne_nil : fenceTQ ≠ [] := by decide

theorem tq_prefix_head {c : Char} {cs : List Char} (h : fenceTQ <+: c :: cs) :
    c = bq ∧ [bq, bq] <+: cs := by
  rw [fenceTQ_eq] at h
  rcases List.cons_prefix_cons.mp h with ⟨h1, h2⟩
  exact ⟨h1.symm, h2⟩

/-- After deleting every `` ``` `` occurrence, a string that did not start with
a backtick still does not start with one. -/
theorem replaceDropAux_no1 : ∀ (fuel : Nat) (l : List Char),
    ¬ ([bq] <+: l) → ¬ ([bq] <+: replaceDropAux fenceTQ fuel l)
  | 0, _, h => h
  | _ + 1, [], _ => by simp [replaceDropAux]
  | fuel + 1, c :: cs, h => by
    by_cases hc : fenceTQ ≠ [] ∧ fenceTQ <+: (c :: cs)
    · exact absurd (List.IsPrefix.trans (by decide : [bq] <+: fenceTQ) hc.2) h
    · simp only [replaceDropAux, if_neg hc]
      intro hp
      rcases List.cons_prefix_cons.mp hp with ⟨hbc, -⟩
      exact h (List.cons_prefix_cons.mpr ⟨hbc, List.nil_prefix ⟩)

/-- After deleting every `` ``` `` occurrence, a string that did not start with
two backticks still does not start with two. -/
theorem replaceDropAux_no2 : ∀ (fuel : Nat) (l : List Char),
    ¬ ([bq, bq] <+: l) → ¬ ([bq, bq] <+: replaceDropAux fenceTQ fuel l)
  | 0, _, h => h
  | _ + 1, [], _ => by simp [replaceDropAux]
  | fuel + 1, c :: cs, h => by
    by_cases hc : fenceTQ ≠ [] ∧ fenceTQ <+: (c :: cs)
    · exact absurd (List.IsPrefix.trans (by decide : [bq, bq] <+: fenceTQ) hc.2) h
    · simp only [replaceDropAux, if_neg hc]
      intro hp
      rcases List.cons_prefix_cons.mp hp with ⟨hbc, h1⟩
      subst hbc
      have hcs : ¬ ([bq] <+: cs) := by
        intro h'
        exact h (List.cons_prefix_cons.mpr ⟨rfl, h'⟩)
      exact replaceDropAux_no1 fuel cs hcs h1

/-- Key fact: deleting every `` ``` `` occurrence leaves a string with no
`` ``` `` occurrence at all (deletions can join backticks, but never three). -/
theorem replaceDropAux_noTriple : ∀ (fuel : Nat) (l : List Char),
    l.length ≤ fuel → ¬ (fenceTQ <:+: replaceDropAux fenceTQ fuel l)
  | 0, l, hle => by
    have hl : l = [] := List.eq_nil_of_length_eq_zero (Nat.le_zero.mp hle)
    subst hl
    simp [replaceDropAux, fenceTQ_ne_nil]
  | _ + 1, [], _ => by simp [replaceDropAux, fenceTQ_ne_nil]
  | fuel + 1, c :: cs, hle => by
    by_cases hc : fenceTQ ≠ [] ∧ fenceTQ <+: (c :: cs)
    · have hlen : ((c :: cs).drop fenceTQ.length).length ≤ fuel := by
        rw [List.length_drop]
        have h3 : fenceTQ.length = 3 := by decide
        have : (c :: cs).length ≤ fuel + 1 := hle
        simp only [List.length_cons] at this
        omega
      have ih := replaceDropAux_noTriple fuel _ hlen
      simpa only [replaceDropAux, if_pos hc] using ih
    · have hcl : cs.length ≤ fuel := by
        have : (c :: cs).length ≤ fuel + 1 := hle
        simp only [List.length_cons] at this
        omega
      have ih := replaceDropAux_noTriple fuel cs hcl
      simp only [replaceDropAux, if_neg hc]
      intro hinf
      rcases List.infix_cons_iff.mp hinf with hpre | htail
      · rcases tq_prefix_head hpre with ⟨hcbq, h2⟩
        subst hcbq
        have hncs : ¬ ([bq, bq] <+: cs) := by
          intro h'
          exact hc ⟨fenceTQ_ne_nil, by
            rw [fenceTQ_eq]
            exact List.cons_prefix_cons.mpr ⟨rfl, h'⟩⟩
        exact replaceDropAux_no2 fuel cs hncs h2
      · exact ih htail

/-- Deleting a pattern that does not occur is the identity. -/
theorem replaceDropAux_id_of_not_occ : ∀ (pat : List Char) (fuel : Nat)
    (l : List Char), ¬ (pat <:+: l) → replaceDropAux pat fuel l = l
  | _, 0, _, _ => rfl
  | _, _ + 1, [], _ => rfl
  | pat, fuel + 1, c :: cs, h => by
    have hnc : ¬ (pat ≠ [] ∧ pat <+: (c :: cs)) := by
      intro hc
      exact h ( List.IsPrefix.isInfix hc.2)
    simp only [replaceDropAux, if_neg hnc]
    have hcs : ¬ (pat <:+: cs) := by
      intro h'
      exact h (List.infix_cons_iff.mpr (Or.inr h'))
    rw [replaceDropAux_id_of_not_occ pat fuel cs hcs]

theorem replaceDrop_id_of_not_occ {pat l : List Char} (h : ¬ (pat <:+: l)) :
    replaceDrop pat l = l :=
  replaceDropAux_id_of_not_occ pat l.length l h

/-- `pyStrip l` is a contiguous piece of `l`. -/
theorem pyStrip_infix_self (l : List Char) : pyStrip l <:+: l := by
  unfold pyStrip
  exact List.IsInfix.trans ( List.IsPrefix.isInfix ( List.rdropWhile_prefix _ _))
    ( List.IsSuffix.isInfix (List.dropWhile_suffix _))

/-- A prefix of a list that `dropWhile` leaves untouched is itself
untouched. -/
theorem dropWhile_eq_self_of_prefix {p : Char → Bool} {x y : List Char}
    (hp : x <+: y) (hy : List.dropWhile p y = y) : List.dropWhile p x = x := by
  cases x with
  | nil => simp
  | cons a xs =>
    cases y with
    | nil =>
      rcases hp with ⟨t, ht⟩
      simp at ht
    | cons b ys =>
      rcases List.cons_prefix_cons.mp hp with ⟨hab, -⟩
      subst hab
      have hpa : p a = false := by
        by_contra hcon
        have hpt : p a = true := by simpa using hcon
        rw [List.dropWhile_cons, if_pos hpt] at hy
        have hlen := congrArg List.length hy
        have hle : (List.dropWhile p ys).length ≤ ys.length :=
          List.IsSuffix.length_le (List.dropWhile_suffix p)
        simp only [List.length_cons] at hlen
        omega
      simp [List.dropWhile_cons, hpa]

/-- A stripped string has no whitespace left at the front. -/
theorem pyStrip_dropWhile (l : List Char) :
    List.dropWhile isPySpace (pyStrip l) = pyStrip l := by
  unfold pyStrip
  exact dropWhile_eq_self_of_prefix ( List.rdropWhile_prefix _ _)
    (List.dropWhile_idempotent _ _)

/-- `str.strip()` is idempotent. -/
theorem pyStrip_idem (l : List Char) : pyStrip (pyStrip l) = pyStrip l := by
  show List.rdropWhile isPySpace (List.dropWhile isPySpace (pyStrip l))
      = pyStrip l
  rw [pyStrip_dropWhile]
  show List.rdropWhile isPySpace
    (List.rdropWhile isPySpace (List.dropWhile isPySpace l)) = pyStrip l
  rw [List.rdropWhile_idempotent]
  rfl

/-- The sanitized reply contains no markdown fence marker. -/
theorem sanitizeL_no_fence (l : List Char) : ¬ (fenceTQ <:+: sanitizeL l) := by
  intro h
  have h2 : fenceTQ <:+:
      replaceDrop fenceTQ (replaceDrop fencePy (pyStrip l)) :=
    List.IsInfix.trans h (pyStrip_infix_self _)
  exact replaceDropAux_noTriple _ _ (Nat.le_refl _) h2

/-- Sanitization is idempotent at the character-list level. -/
theorem sanitizeL_idem (l : List Char) : sanitizeL (sanitizeL l) = sanitizeL l := by
  have htq : ¬ (fenceTQ <:+: sanitizeL l) := sanitizeL_no_fence l
  have hpy : ¬ (fencePy <:+: sanitizeL l) := by
    intro h
    exact htq (List.IsInfix.trans
      ( List.IsPrefix.isInfix (by decide : fenceTQ <+: fencePy)) h)
  have hstrip : pyStrip (sanitizeL l) = sanitizeL l := pyStrip_idem _
  calc sanitizeL (sanitizeL l)
      = pyStrip (replaceDrop fenceTQ (replaceDrop fencePy
          (pyStrip (sanitizeL l)))) := rfl
    _ = pyStrip (replaceDrop fenceTQ (replaceDrop fencePy (sanitizeL l))) := by
          rw [hstrip]
    _ = pyStrip (replaceDrop fenceTQ (sanitizeL l)) := by
          rw [replaceDrop_id_of_not_occ hpy]
    _ = pyStrip (sanitizeL l) := by rw [replaceDrop_id_of_not_occ htq]
    _ = sanitizeL l := hstrip

/-! ## Lemmas on the pipeline -/

/-- A captured value the `try` block accepts is a non-empty dataframe. -/
theorem tryBlock_success_shape {exec : ExecOracle} {df : DataFrame}
    {code : String} {v : PyValue}
    (h : tryBlock exec df code = Except.ok (TryResult.success v)) :
    ∃ d, v = PyValue.pdf d ∧ d.empty = false := by
  unfold tryBlock at h
  cases hexec : exec code [("df", PyValue.pdf df)] with
  | error e => rw [hexec] at h; exact absurd h (by simp)
  | ok ctx =>
    rw [hexec] at h
    simp only at h
    by_cases hpn : (List.lookup "filtered_df" ctx).getD PyValue.pnone
        = PyValue.pnone
    · rw [if_pos hpn] at h
      exact absurd h (by simp)
    · rw [if_neg hpn] at h
      cases hval : (List.lookup "filtered_df" ctx).getD PyValue.pnone with
      | pnone => exact absurd hval hpn
      | pdf d =>
        rw [hval] at h
        simp only [PyValue.emptyAttr] at h
        by_cases hemp : d.empty
        · rw [hemp] at h; exact absurd h (by simp)
        · rw [Bool.not_eq_true] at hemp
          rw [hemp] at h
          simp only [Except.ok.injEq, TryResult.success.injEq] at h
          exact ⟨d, h.symm, hemp⟩
      | other tag =>
        rw [hval] at h
        simp only [PyValue.emptyAttr] at h
        exact absurd h (by simp)

/-- Membership of the comma-joined column list. -/
theorem mem_joinComma {c : String} : ∀ {cols : List String}, c ∈ cols →
    c.toList <:+: (joinComma cols).toList
  | [], h => absurd h (by simp)
  | [a], h => by
    rcases List.mem_singleton.mp h with rfl
    simp [joinComma]
  | a :: b :: rest, h => by
    rcases List.mem_cons.mp h with rfl | htl
    · show c.toList <:+: (c ++ ", " ++ joinComma (b :: rest)).toList
      simp only [String.toList, String.data_append]
      exact List.IsPrefix.isInfix
        (List.IsPrefix.trans (List.prefix_append _ _) (List.prefix_append _ _))
    · show c.toList <:+: (a ++ ", " ++ joinComma (b :: rest)).toList
      simp only [String.toList, String.data_append]
      exact List.IsInfix.trans (mem_joinComma htl)
        ( List.IsSuffix.isInfix (List.suffix_append _ _))

/-! ## Claim theorems -/

/-- C5: the sanitization performed by `filter_dataframe_with_ai` — whitespace
trimming plus stripping of the markdown fence markers `"```python"` and
`"```"` — is idempotent: sanitizing an already-sanitized reply returns it
unchanged. -/
theorem claim_C5_sanitize_idempotent (s : String) :
    sanitize (sanitize s) = sanitize s := by
  show String.mk (sanitizeL (String.mk (sanitizeL s.toList)).toList)
      = String.mk (sanitizeL s.toList)
  have h : (String.mk (sanitizeL s.toList)).toList = sanitizeL s.toList := rfl
  rw [h, sanitizeL_idem]

/-- C7: if the remote chat-completion call fails with a transport error, the
error is raised outside the `try` block of `filter_dataframe_with_ai`, so it
propagates unhandled to the caller — no output, no dataset replacement. -/
theorem claim_C7_transport_error_propagates
    (ask : String → Except String String) (exec : ExecOracle) (df : DataFrame)
    (user_comment e : String)
    (h : ask (buildPrompt df user_comment) = Except.error e) :
    filter_dataframe_with_ai ask exec df user_comment = Except.error e := by
  unfold filter_dataframe_with_ai
  rw [h]

/-- Witness for C7 at a concrete failing transport call. -/
theorem claim_C7_witness :
    filter_dataframe_with_ai (fun _ => Except.error "HTTPError 500")
      (fun _ ctx => Except.ok ctx)
      { columns := ["sales"], rows := [["10"]] } "sales > 5"
      = Except.error "HTTPError 500" :=
  claim_C7_transport_error_propagates _ _ _ _ _ rfl

/-- C2: if the sanitized reply does not contain the substring `"filtered_df"`,
`filter_dataframe_with_ai` returns the original dataframe, shows only the
error message (no code block), and never consults the execution oracle. -/
theorem claim_C2_missing_marker_retains (exec : ExecOracle) (df : DataFrame)
    (reply : String)
    (hno : pyIn "filtered_df" (sanitize reply) = false) :
    synthesize_core exec df reply =
      { result := PyValue.pdf df, shown := [Shown.errorMsg invalidFilterMsg] }
    ∧ (∀ exec' : ExecOracle,
        synthesize_core exec' df reply = synthesize_core exec df reply)
    ∧ (∀ c, Shown.codeBlock c ∉ (synthesize_core exec df reply).shown) := by
  have key : ∀ e : ExecOracle, synthesize_core e df reply =
      { result := PyValue.pdf df
        shown := [Shown.errorMsg invalidFilterMsg] } := by
    intro e
    unfold synthesize_core
    simp [hno]
  refine ⟨key exec, fun e => by rw [key e, key exec], fun c => ?_⟩
  rw [key exec]
  simp

/-- C1: if evaluating the sanitized code raises, `filter_dataframe_with_ai`
catches the exception and returns the original dataframe unchanged, showing
the code and an error message that includes the raised error's text; the
exception never propagates and the dataset is never replaced. -/
theorem claim_C1_exec_failure_retains (exec : ExecOracle) (df : DataFrame)
    (reply e : String)
    (hin : pyIn "filtered_df" (sanitize reply) = true)
    (hraise : exec (sanitize reply) [("df", PyValue.pdf df)]
        = Except.error e) :
    synthesize_core exec df reply =
      { result := PyValue.pdf df
        shown := [Shown.codeBlock (sanitize reply),
                  Shown.errorMsg (execErrorMsg e)] } := by
  have htb : tryBlock exec df (sanitize reply) = Except.error e := by
    unfold tryBlock
    rw [hraise]
  unfold synthesize_core
  simp [hin, htb]

/-- Witness for C1 at a concrete always-raising execution. -/
theorem claim_C1_witness :
    synthesize_core (fun _ _ => Except.error "division by zero")
      { columns := ["sales"], rows := [["10"]] } "filtered_df = 1/0"
      = { result := PyValue.pdf { columns := ["sales"], rows := [["10"]] }
          shown := [Shown.codeBlock (sanitize "filtered_df = 1/0"),
                    Shown.errorMsg (execErrorMsg "division by zero")] } :=
  claim_C1_exec_failure_retains _ _ _ _ (by decide) rfl

/-- C3: when execution succeeds, an absent (`None`) or empty captured
`filtered_df` leaves the original dataframe in place; a present, non-empty
captured dataframe — and only that — replaces it. -/
theorem claim_C3_absent_or_empty_retains (exec : ExecOracle) (df : DataFrame)
    (reply : String) (ctx : Ctx)
    (hin : pyIn "filtered_df" (sanitize reply) = true)
    (hexec : exec (sanitize reply) [("df", PyValue.pdf df)]
        = Except.ok ctx) :
    (((List.lookup "filtered_df" ctx).getD PyValue.pnone = PyValue.pnone
        ∨ ∃ d, (List.lookup "filtered_df" ctx).getD PyValue.pnone
              = PyValue.pdf d ∧ d.empty = true) →
      (synthesize_core exec df reply).result = PyValue.pdf df)
    ∧ (∀ d, (List.lookup "filtered_df" ctx).getD PyValue.pnone
          = PyValue.pdf d → d.empty = false →
        (synthesize_core exec df reply).result = PyValue.pdf d) := by
  constructor
  · intro habs
    have htb : tryBlock exec df (sanitize reply)
        = Except.ok TryResult.noRows := by
      unfold tryBlock
      rw [hexec]
      rcases habs with hpn | ⟨d, hd, hemp⟩
      · simp [hpn]
      · simp [hd, PyValue.emptyAttr, hemp]
    unfold synthesize_core
    simp [hin, htb]
  · intro d hd hemp
    have htb : tryBlock exec df (sanitize reply)
        = Except.ok (TryResult.success (PyValue.pdf d)) := by
      unfold tryBlock
      rw [hexec]
      simp [hd, PyValue.emptyAttr, hemp]
    unfold synthesize_core
    simp [hin, htb]

/-- Witness for C3: an execution that binds `filtered_df` to an empty
dataframe; the original dataframe is kept. -/
theorem claim_C3_witness :
    (synthesize_core
      (fun _ _ => Except.ok
        [("filtered_df", PyValue.pdf { columns := ["sales"], rows := [] })])
      { columns := ["sales"], rows := [["10"]] }
      "filtered_df = df[df[\"sales\"] > 99]").result
    = PyValue.pdf { columns := ["sales"], rows := [["10"]] } :=
  (claim_C3_absent_or_empty_retains _ _ _ _ (by decide) rfl).1
    (Or.inr ⟨{ columns := ["sales"], rows := [] }, by decide, by decide⟩)

/-- C4: the execution context passed to the oracle is exactly the single
binding `df ↦` input dataframe — two oracles that agree on that one context
yield identical outcomes — and afterward only the `"filtered_df"` binding of
the returned context is consulted. -/
theorem claim_C4_context_single_binding (df : DataFrame) (reply : String) :
    (∀ exec exec' : ExecOracle,
      (∀ c, exec c [("df", PyValue.pdf df)]
          = exec' c [("df", PyValue.pdf df)]) →
      synthesize_core exec df reply = synthesize_core exec' df reply)
    ∧ (∀ (exec exec' : ExecOracle) (ctx ctx' : Ctx),
      exec (sanitize reply) [("df", PyValue.pdf df)] = Except.ok ctx →
      exec' (sanitize reply) [("df", PyValue.pdf df)] = Except.ok ctx' →
      List.lookup "filtered_df" ctx = List.lookup "filtered_df" ctx' →
      synthesize_core exec df reply = synthesize_core exec' df reply) := by
  constructor
  · intro exec exec' hagree
    unfold synthesize_core tryBlock
    simp only [hagree]
  · intro exec exec' ctx ctx' hexec hexec' hlk
    unfold synthesize_core tryBlock
    simp only [hexec, hexec', hlk]

/-- Witness for C4: an oracle that returns its locals dict unchanged and one
that returns the literal single-binding dict behave identically. -/
theorem claim_C4_witness :
    synthesize_core (fun _ ctx => Except.ok ctx)
      { columns := ["sales"], rows := [["10"]] } "filtered_df = df"
    = synthesize_core
      (fun _ _ => Except.ok
        [("df", PyValue.pdf { columns := ["sales"], rows := [["10"]] })])
      { columns := ["sales"], rows := [["10"]] } "filtered_df = df" :=
  (claim_C4_context_single_binding _ _).1 _ _ (fun _ => rfl)

/-- C9: the evaluation phase is total.  If the code binds `filtered_df` to a
non-dataframe value, the emptiness check raises and the handler catches it,
returning the original dataframe; and in every case the result is either the
input dataframe or a captured non-empty dataframe — never an escaping
exception. -/
theorem claim_C9_eval_phase_total (exec : ExecOracle) (df : DataFrame)
    (reply : String) :
    (∀ (ctx : Ctx) (tag : String),
      pyIn "filtered_df" (sanitize reply) = true →
      exec (sanitize reply) [("df", PyValue.pdf df)] = Except.ok ctx →
      (List.lookup "filtered_df" ctx).getD PyValue.pnone
          = PyValue.other tag →
      synthesize_core exec df reply =
        { result := PyValue.pdf df
          shown := [Shown.codeBlock (sanitize reply),
                    Shown.errorMsg (execErrorMsg (attrErrText tag))] })
    ∧ ((synthesize_core exec df reply).result = PyValue.pdf df
        ∨ ∃ d, (synthesize_core exec df reply).result = PyValue.pdf d
            ∧ d.empty = false) := by
  constructor
  · intro ctx tag hin hexec hother
    have htb : tryBlock exec df (sanitize reply)
        = Except.error (attrErrText tag) := by
      unfold tryBlock
      rw [hexec]
      simp [hother, PyValue.emptyAttr]
    unfold synthesize_core
    simp [hin, htb]
  · by_cases hin : pyIn "filtered_df" (sanitize reply) = false
    · left
      unfold synthesize_core
      simp [hin]
    · rw [Bool.not_eq_false] at hin
      cases htb : tryBlock exec df (sanitize reply) with
      | error e =>
        left
        unfold synthesize_core
        simp [hin, htb]
      | ok tr =>
        cases tr with
        | noRows =>
          left
          unfold synthesize_core
          simp [hin, htb]
        | success v =>
          rcases tryBlock_success_shape htb with ⟨d, rfl, hemp⟩
          right
          refine ⟨d, ?_, hemp⟩
          unfold synthesize_core
          simp [hin, htb]

/-- Witness for C9: `filtered_df` bound to an `int`; the AttributeError is
caught and the original dataframe is returned. -/
theorem claim_C9_witness :
    synthesize_core (fun _ _ => Except.ok [("filtered_df", PyValue.other "int")])
      { columns := ["sales"], rows := [["10"]] } "filtered_df = 7"
      = { result := PyValue.pdf { columns := ["sales"], rows := [["10"]] }
          shown := [Shown.codeBlock (sanitize "filtered_df = 7"),
                    Shown.errorMsg (execErrorMsg (attrErrText "int"))] } :=
  (claim_C9_eval_phase_total _ _ _).1 _ "int" (by decide) rfl (by decide)

/-- Witness for C2: a reply with no `filtered_df` marker. -/
theorem claim_C2_witness :
    synthesize_core (fun _ ctx => Except.ok ctx)
      { columns := ["sales"], rows := [["10"]] } "df.head()"
      = { result := PyValue.pdf { columns := ["sales"], rows := [["10"]] }
          shown := [Shown.errorMsg invalidFilterMsg] } :=
  (claim_C2_missing_marker_retains _ _ _ (by decide)).1

/-- C6: the prompt built by `filter_dataframe_with_ai` contains, as literal
substrings, every column name of the dataframe, the comma-joined column list
in column order, and the user instruction verbatim. -/
theorem claim_C6_prompt_contains_columns_and_instruction (df : DataFrame)
    (user_comment : String) (hcols : df.columns ≠ []) :
    (∀ c ∈ df.columns,
      c.toList <:+: (buildPrompt df user_comment).toList)
    ∧ (joinComma df.columns).toList <:+: (buildPrompt df user_comment).toList
    ∧ user_comment.toList <:+: (buildPrompt df user_comment).toList := by
  have hsplit : (buildPrompt df user_comment).toList =
      promptHead.toList ++ ((joinComma df.columns).toList ++
        (promptMid.toList ++ (user_comment.toList ++ promptTail.toList))) := by
    simp [buildPrompt, String.toList, String.data_append]
  have hjoin : (joinComma df.columns).toList <:+:
      (buildPrompt df user_comment).toList := by
    rw [hsplit]
    exact ⟨promptHead.toList,
      promptMid.toList ++ (user_comment.toList ++ promptTail.toList), rfl⟩
  refine ⟨fun c hc => List.IsInfix.trans (mem_joinComma hc) hjoin, hjoin, ?_⟩
  rw [hsplit]
  exact ⟨promptHead.toList ++ ((joinComma df.columns).toList ++
    promptMid.toList), promptTail.toList, by simp⟩

/-- Witness for C6 on a concrete two-column dataframe and instruction. -/
theorem claim_C6_witness :
    ("sales".toList <:+:
      (buildPrompt { columns := ["sales", "year"], rows := [] }
        "sales > 1000").toList)
    ∧ ("sales > 1000".toList <:+:
      (buildPrompt { columns := ["sales", "year"], rows := [] }
        "sales > 1000").toList) :=
  ⟨(claim_C6_prompt_contains_columns_and_instruction _ _ (by decide)).1
      "sales" (by decide),
   (claim_C6_prompt_contains_columns_and_instruction
      { columns := ["sales", "year"], rows := [] } "sales > 1000"
      (by decide)).2.2⟩

/-- C8: a `"Histogram"` chart draws the distribution of the y-column alone
into exactly 20 bins — the x-column appears only in the axis label, never in
the drawn data — and an unrecognized chart kind produces a warning and draws
nothing. -/
theorem claim_C8_histogram_and_unrecognized (df : DataFrame)
    (t x x' y : String)
    (ht : t ∉ ["Line", "Bar", "Scatter", "Histogram"]) :
    plot_chart df "Histogram" x y =
      [ChartCmd.clear, ChartCmd.hist (df.col y) 20,
       ChartCmd.title "Histogram Chart", ChartCmd.xlabel x,
       ChartCmd.ylabel y, ChartCmd.render]
    ∧ drawnData (plot_chart df "Histogram" x y)
        = drawnData (plot_chart df "Histogram" x' y)
    ∧ plot_chart df t x y = [ChartCmd.clear, ChartCmd.warn invalidChartMsg] := by
  simp only [List.mem_cons, List.mem_singleton, not_or] at ht
  obtain ⟨h1, h2, h3, h4⟩ := ht
  refine ⟨?_, ?_, ?_⟩
  · simp [plot_chart, chartTail]
  · simp [plot_chart, chartTail, drawnData, isDrawCmd]
  · simp [plot_chart, h1, h2, h3, h4]

/-- Witness for C8 at the unrecognized kind `"Pie"`. -/
theorem claim_C8_witness :
    plot_chart { columns := ["sales"], rows := [["10"]] } "Pie" "sales" "sales"
      = [ChartCmd.clear, ChartCmd.warn invalidChartMsg] :=
  (claim_C8_histogram_and_unrecognized
    { columns := ["sales"], rows := [["10"]] } "Pie" "sales" "sales" "sales"
    (by decide)).2.2

/-- C10: `plot_chart` clears the drawing surface before inspecting the chart
kind, so even an unrecognized kind erases the previously rendered chart while
drawing nothing new. -/
theorem claim_C10_clear_before_kind_check (df : DataFrame) (t x y : String) :
    (plot_chart df t x y).head? = some ChartCmd.clear
    ∧ (t ∉ ["Line", "Bar", "Scatter", "Histogram"] →
        ChartCmd.clear ∈ plot_chart df t x y
        ∧ drawnData (plot_chart df t x y) = []) := by
  constructor
  · simp [plot_chart]
  · intro ht
    simp only [List.mem_cons, List.mem_singleton, not_or] at ht
    obtain ⟨h1, h2, h3, h4⟩ := ht
    constructor
    · simp [plot_chart]
    · simp [plot_chart, h1, h2, h3, h4, drawnData, isDrawCmd]

/-- Witness for C10 at the unrecognized kind `"Area"`. -/
theorem claim_C10_witness :
    (plot_chart { columns := ["sales"], rows := [["10"]] } "Area" "sales"
        "sales").head? = some ChartCmd.clear
    ∧ drawnData (plot_chart { columns := ["sales"], rows := [["10"]] } "Area"
        "sales" "sales") = [] := by
  have h := claim_C10_clear_before_kind_check
    { columns := ["sales"], rows := [["10"]] } "Area" "sales" "sales"
  exact ⟨h.1, (h.2 (by decide)).2⟩
